import Mathlib

/-!
Shallow embedding of the Habana snapshot-for-debug utility
(`helper_functions.py` and `gather_info_docker.py`).

Paths handed to `create_output_dir` are modelled as the list of their
components from the root (`get_canonical_path` is the identity on already
canonical absolute inputs).  The filesystem is a partial map from such a
path to the kind of object (regular file or directory) occupying it.
-/

set_option autoImplicit false
set_option linter.unusedVariables false

namespace Snapshot

/-- A filesystem path, as the list of its components from the root. -/
abbrev FPath := List String

/-- What occupies a filesystem location: a regular file or a directory. -/
inductive FKind where
  | file : FKind
  | dir : FKind
deriving DecidableEq, Repr

/-- A filesystem: what, if anything, occupies each path. -/
def FS := FPath → Option FKind

/-- os.path.isfile. -/
def FS.isfile (fs : FS) (p : FPath) : Bool := decide (fs p = some FKind.file)

/-- os.path.isdir. -/
def FS.isdir (fs : FS) (p : FPath) : Bool := decide (fs p = some FKind.dir)

/-- os.remove: delete the entry at exactly the given path. -/
def FS.removeEntry (fs : FS) (p : FPath) : FS :=
  fun q => if q = p then none else fs q

/-- shutil.rmtree: delete the directory at the given path together with
everything below it. -/
def FS.rmtree (fs : FS) (p : FPath) : FS :=
  fun q => if p.isPrefixOf q then none else fs q

/-- os.makedirs with exist_ok set: succeeds iff no prefix of the path is
occupied by a regular file (otherwise Python raises FileExistsError or
NotADirectoryError); creates every missing ancestor, and the path itself,
as a directory. -/
def FS.makedirs (fs : FS) (p : FPath) : Except String FS :=
  if p.inits.all (fun q => !(fs.isfile q)) then
    .ok (fun q => if q.isPrefixOf p && (fs q).isNone then some FKind.dir else fs q)
  else .error "FileExistsError"

/-- The path of `str(od_path) + ".tar.gz"`: same parent, last component with
the suffix appended. -/
def tarSibling (p : FPath) : FPath := p.dropLast ++ [p.getLastD "" ++ ".tar.gz"]

/-- create_output_dir from helper_functions.py: optionally clear a
pre-existing file or directory at the requested (canonical) path, create the
directory, and delete a stale archive sitting beside it.  Any failure is
wrapped ("Error in creating directory ..."), mirroring the RuntimeError
raised from the original cause. -/
def create_output_dir (fs : FS) (odPath : FPath) (clearFlag : Bool) : Except String FS :=
  let fs1 := if clearFlag then
      if fs.isfile odPath then fs.removeEntry odPath
      else if fs.isdir odPath then fs.rmtree odPath
      else fs
    else fs
  match fs1.makedirs odPath with
  | .error e => .error ("Error in creating directory: " ++ e)
  | .ok fs2 =>
    let fs3 := if fs2.isfile (tarSibling odPath) then fs2.removeEntry (tarSibling odPath) else fs2
    .ok fs3

/-- An entry of the container home tree: a regular file, or a directory
with the list of entries below it. -/
inductive Entry where
  | file : String → Entry
  | dir : String → List Entry → Entry
deriving Repr

/-- The basename of an entry. -/
def Entry.name : Entry → String
  | .file n => n
  | .dir n _ => n

/-- isValidDirToCopy from gather_info_docker.py, on the list of children of
the scanned directory: false iff some child directory is named after the
output directory or is itself invalid. -/
def isValidDirToCopy (b : String) : List Entry → Bool
  | [] => true
  | .file _ :: es => isValidDirToCopy b es
  | .dir n cs :: es => (!(n == b) && isValidDirToCopy b cs) && isValidDirToCopy b es

/-- The filter applied by getHomeDirContentToSave to each top-level home
entry: a directory is kept when its name differs from the output directory
basename and it is valid to copy; a regular file is always kept. -/
def keepHomeEntry (b : String) : Entry → Bool
  | .file _ => true
  | .dir n cs => !(n == b) && isValidDirToCopy b cs

/-- getHomeDirContentToSave from gather_info_docker.py: the entries directly
under the home directory that will be copied, given the basename of the
parent of the resolved output directory. -/
def getHomeDirContentToSave (b : String) (home : List Entry) : List Entry :=
  home.filter (keepHomeEntry b)

/-- Whether some entry of the list is, or transitively contains, a directory
named b. -/
def containsAny (b : String) : List Entry → Bool
  | [] => false
  | .file _ :: es => containsAny b es
  | .dir n cs :: es => ((n == b) || containsAny b cs) || containsAny b es

/-- Whether the entry is, or transitively contains, a directory named b. -/
def containsDirNamed (b : String) (e : Entry) : Bool :=
  match e with
  | .file _ => false
  | .dir n cs => (n == b) || containsAny b cs

/-!
Orchestrator model.  A run of `SnapshotScriptDocker` is modelled as a trace
of observable effects: shell commands handed to `runCmd`, files and
subdirectories created under the output directory, structured copy
operations (recording whether the `cp` invocation carried `-L`, i.e.
dereferenced symbolic links), diagnostic messages, and the archive created
by `generateTarball`.  Python exceptions are values of `PyErr`; a step
returns either the extended trace or the raised error together with the
trace at the moment of the raise.
-/

/-- A cp invocation issued by saveFile / saveFileNoSymlink: source operand,
destination operand, and whether symbolic links are dereferenced (the `-L`
flag, present in saveFile, absent in saveFileNoSymlink). -/
structure CopyOp where
  src : String
  dest : String
  dereference : Bool
deriving DecidableEq, Repr

/-- The observable effects of a (partial) run. -/
structure Trace where
  cmds : List String
  outFiles : List String
  outDirs : List String
  copies : List CopyOp
  msgs : List String
  tarball : Option String
deriving DecidableEq, Repr

/-- The empty trace. -/
def Trace.initial : Trace :=
  { cmds := [], outFiles := [], outDirs := [], copies := [], msgs := [], tarball := none }

/-- A Python exception value: a bare Exception message, or a RuntimeError
raised `from` a causing exception. -/
inductive PyErr where
  | exception : String → PyErr
  | runtimeError : String → PyErr → PyErr
deriving DecidableEq, Repr

/-- The parsed arguments as used by SnapshotScriptDocker: `outdir` is the
already resolved output directory (the -o argument joined with TMPDIR). -/
structure Args where
  outdir : String
  clear : Bool
  lite : Bool
  stdout : String
  stderr : Option String
  yaml_config : Option String
  cmd_name : Option String
  copydirs : List String
deriving Repr

/-- The ambient system state the script consults: which paths exist, the
exit code each shell command would report (discarded by runCmd), the
HABANA_LOGS variable, the home directory path and its entry tree, and which
package managers are installed. -/
structure World where
  pathExists : String → Bool
  cmdExitCode : String → Int
  habanaLogsEnv : Option String
  homePath : String
  homeEntries : List Entry
  hasDpkg : Bool
  hasRpm : Bool

/-- os.path.splitext(os.path.basename(ACTUAL_CMD))[0] for gather_info_docker.py. -/
def TMPDIR : String := "gather_info_docker"

/-- The temporary file name used by saveTmpFile / saveEnvVars. -/
def TMPFILENAME : String := "tmpfile"

/-- The execution-command-line record file written by main before the
orchestrator starts. -/
def EXECCMDLINEFILE : String := "execution-command-line-gather_info_docker.py.txt"

/-- STANDARD_FILE_NAMES: the canonical name table of SnapshotScriptDocker. -/
def STANDARD_FILE_NAMES : String → String
  | "stdout" => "cmd_stdout.txt"
  | "stderr" => "cmd_stderr.txt"
  | "cmdline" => "cmdline_invocation.txt"
  | "yamlconfig" => "model_yaml_config.txt"
  | "envvars" => "env_vars.txt"
  | "habanalogs" => "habana_logs"
  | "dockerc_pypkgs" => "docker_container_python_pkgs.txt"
  | "dockerc_history" => "docker_container_history.txt"
  | "dockerc_diskusage" => "docker_container_disk_usage.txt"
  | "dockerc_homedir" => "docker_container_homedir_and_model_artifacts"
  | "dockerc_copydir" => "docker_container_additional_dirs"
  | "machine_hostname" => "machine_hostname.txt"
  | "machine_ipaddr" => "machine_ipaddr.txt"
  | "machine_hlsmi" => "machine_hlsmi.txt"
  | "machine_lspci" => "machine_lspci.txt"
  | "machine_cpuinfo" => "machine_cpuinfo.txt"
  | "machine_cpumode" => "machine_cpumode.txt"
  | "machine_nicstatus" => "machine_Gaudi_NIC_status.txt"
  | "python_info" => "python_installation_info.txt"
  | "platform_config_info" => "platform_config_info.txt"
  | "synapse_libs_info" => "synapse_libs_info.txt"
  | "package_info" => "package_info.txt"
  | "dmesg_info" => "dmesg_info.txt"
  | _ => ""

/-- Split a character list at every slash (helper for basename/dirname). -/
def splitSlashAux : List Char → List Char → List String
  | [], acc => [String.mk acc.reverse]
  | c :: cs, acc =>
    if c = '/' then String.mk acc.reverse :: splitSlashAux cs []
    else splitSlashAux cs (c :: acc)

/-- The slash-separated components of a string path. -/
def splitSlash (s : String) : List String := splitSlashAux s.toList []

/-- Join path components with slashes. -/
def joinSlash : List String → String
  | [] => ""
  | [x] => x
  | x :: y :: xs => x ++ "/" ++ joinSlash (y :: xs)

/-- os.path.basename on a slash-separated string path. -/
def basenameStr (p : String) : String := (splitSlash p).getLastD ""

/-- os.path.dirname on a slash-separated string path. -/
def dirnameStr (p : String) : String := joinSlash (splitSlash p).dropLast

/-- get_outdir_filename: join the output directory with a file name. -/
def get_outdir_filename (a : Args) (filename : String) : String :=
  a.outdir ++ "/" ++ filename

/-- Record a printed diagnostic (print / generateHeader). -/
def addMsg (m : String) (t : Trace) : Trace := { t with msgs := t.msgs ++ [m] }

/-- Record a file created under the output directory (shell redirection
target or a Python-level open-and-write). -/
def addOutFile (f : String) (t : Trace) : Trace := { t with outFiles := t.outFiles ++ [f] }

/-- Record a subdirectory created under the output directory (os.makedirs
with exist_ok, assumed to succeed since the output directory is writable). -/
def addOutDir (d : String) (t : Trace) : Trace := { t with outDirs := t.outDirs ++ [d] }

/-- runCmd: Popen(cmd, shell) followed by proc.wait().  The exit status of
the command is discarded, so runCmd never raises, whatever the command
reported. -/
def runCmd (cmd : String) (t : Trace) : Trace := { t with cmds := t.cmds ++ [cmd] }

/-- runCmd on a command of the shape `cmd > target` (or `>> target`): the
shell creates the target file even when the producing command fails. -/
def runCmdRedirect (cmd : String) (target : String) (t : Trace) : Trace :=
  { runCmd cmd t with outFiles := t.outFiles ++ [target] }

/-- saveFile with an info_file_type: `cp -r -f -L --preserve=timestamps`
into the canonical destination, dereferencing symbolic links. -/
def saveFile (a : Args) (src : String) (ftype : String) (t : Trace) : Trace :=
  let dest := get_outdir_filename a (STANDARD_FILE_NAMES ftype)
  let t := runCmd ("cp -r -f -L --preserve=timestamps " ++ src ++ " " ++ dest) t
  { t with copies := t.copies ++ [{ src := src, dest := dest, dereference := true }] }

/-- saveFileNoSymlink with an info_file_type: `cp -r -f
--preserve=timestamps` (no -L) into the canonical destination, preserving
symbolic links as links. -/
def saveFileNoSymlink (a : Args) (src : String) (ftype : String) (t : Trace) : Trace :=
  let dest := get_outdir_filename a (STANDARD_FILE_NAMES ftype)
  let t := runCmd ("cp -r -f --preserve=timestamps " ++ src ++ " " ++ dest) t
  { t with copies := t.copies ++ [{ src := src, dest := dest, dereference := false }] }

/-- The result of one collection step: the extended trace, or the raised
exception together with the trace at the raise. -/
abbrev StepResult := Except (PyErr × Trace) Trace

/-- The `except Exception as exc: raise RuntimeError("Error in <step>") from
exc` wrapper shared by the numbered steps. -/
def wrapStep (name : String) (r : StepResult) : StepResult :=
  match r with
  | .ok t => .ok t
  | .error (e, t) => .error (PyErr.runtimeError ("Error in " ++ name) e, t)

/-- saveCmdOutputs: copy the required stdout file and the optional stderr
file; a missing path raises Exception("<path> is not a valid filename"),
wrapped as RuntimeError("Error in saveCmdOutputs"). -/
def saveCmdOutputs (w : World) (a : Args) (t : Trace) : StepResult :=
  wrapStep "saveCmdOutputs" (do
    let t := addMsg "Saving command outputs" t
    let t ← if w.pathExists a.stdout then pure (saveFile a a.stdout "stdout" t)
      else Except.error (PyErr.exception (a.stdout ++ " is not a valid filename"),
        addMsg ("The filename specified by " ++ a.stdout ++ " does not exist") t)
    match a.stderr with
    | none => Except.ok t
    | some e =>
      if w.pathExists e then Except.ok (saveFile a e "stderr" t)
      else Except.error (PyErr.exception (e ++ " is not a valid filename"),
        addMsg ("The filename specified by " ++ e ++ " does not exist") t))

/-- saveCmdlineAndOptions: when a cmd_name is given, flush shell history and
extract the most recent matching history line into the canonical cmdline
file; when a yaml_config is given, copy it. -/
def saveCmdlineAndOptions (w : World) (a : Args) (t : Trace) : StepResult :=
  wrapStep "saveCmdlineAndOptions" (do
    let t := match a.cmd_name with
      | none => t
      | some cn =>
        let t := addMsg "Saving training command line along with options" t
        let t := runCmd "history -a" t
        let dest := get_outdir_filename a (STANDARD_FILE_NAMES "cmdline")
        runCmdRedirect
          ("grep " ++ cn ++ " $HOME/.bash_history | grep -v gather_info_docker.py | tail -1 > " ++ dest)
          dest t
    match a.yaml_config with
    | none => Except.ok t
    | some y =>
      Except.ok (saveFile a y "yamlconfig"
        (addMsg "Saving YAML configuration file used to run training" t)))

/-- saveEnvVars: remove a stale tmpfile when present (modelled as a no-op on
the trace; the output directory is writable) and dump `env` into the
canonical env-vars file via shell redirection. -/
def saveEnvVars (w : World) (a : Args) (t : Trace) : StepResult :=
  wrapStep "saveEnvVars" (do
    let t := addMsg "Saving environment variables" t
    let dest := get_outdir_filename a (STANDARD_FILE_NAMES "envvars")
    Except.ok (runCmdRedirect ("env > " ++ dest) dest t))

/-- saveHabanaLogs: create the canonical habana_logs subdirectory and copy
everything under the path named by HABANA_LOGS into it (when the variable is
unset, the f-string produces the literal source "None/*"). -/
def saveHabanaLogs (w : World) (a : Args) (t : Trace) : StepResult :=
  wrapStep "saveHabanaLogs" (do
    let t := addMsg "Saving Habana log files" t
    let t := addOutDir (get_outdir_filename a (STANDARD_FILE_NAMES "habanalogs")) t
    let src := (match w.habanaLogsEnv with | some p => p | none => "None") ++ "/*"
    Except.ok (saveFile a src "habanalogs" t))

/-- The diagnostic printed by saveModelSpecificArtifacts in lite mode. -/
def liteSkipMsg : String :=
  "Skipping copying model artifacts, datasets, training run output directories, and other contents of HOME since the lite option is specified"

/-- saveModelSpecificArtifacts: in lite mode, print the skip banner and
return before anything is created; otherwise create the canonical home
artifacts subdirectory and copy every qualifying top-level home entry into
it (dereferencing symbolic links). -/
def saveModelSpecificArtifacts (w : World) (a : Args) (t : Trace) : StepResult :=
  if a.lite then Except.ok (addMsg liteSkipMsg t)
  else
    wrapStep "saveModelSpecificArtifacts" (do
      let t := addMsg "Saving model artifacts, datasets, training run output directories, and other contents of HOME" t
      let t := addOutDir (get_outdir_filename a (STANDARD_FILE_NAMES "dockerc_homedir")) t
      let kept := getHomeDirContentToSave (basenameStr (dirnameStr a.outdir)) w.homeEntries
      Except.ok (kept.foldl (fun t e => saveFile a (w.homePath ++ "/" ++ e.name) "dockerc_homedir" t) t))

/-- The per-entry body of the saveAdditionalCopyDirs loop: an existing path
is copied without dereferencing symbolic links; a missing one is skipped
with a diagnostic. -/
def copydirsLoop (w : World) (a : Args) (l : List String) (t : Trace) : Trace :=
  l.foldl (fun t d =>
    if w.pathExists d then saveFileNoSymlink a d "dockerc_copydir" t
    else addMsg ("Skipping " ++ d ++ " from copydirs since this path does not exist") t) t

/-- The trace produced by saveAdditionalCopyDirs (the step never raises). -/
def copydirsResult (w : World) (a : Args) (t : Trace) : Trace :=
  if a.copydirs = [] then t
  else
    let t := addMsg "Saving user-specified copydirs" t
    let t := addOutDir (get_outdir_filename a (STANDARD_FILE_NAMES "dockerc_copydir")) t
    copydirsLoop w a a.copydirs t

/-- saveAdditionalCopyDirs: when copydirs is nonempty, create the canonical
extras subdirectory and process each entry of the list. -/
def saveAdditionalCopyDirs (w : World) (a : Args) (t : Trace) : StepResult :=
  wrapStep "saveAdditionalCopyDirs" (Except.ok (copydirsResult w a t))

/-- saveDockerRunParameters: flush and copy shell history, dump the pip3
package list and the home directory disk usage. -/
def saveDockerRunParameters (w : World) (a : Args) (t : Trace) : StepResult :=
  wrapStep "saveDockerRunParameters" (do
    let t := addMsg "Saving container command history, packages list, disk usage" t
    let t := runCmd "history -a" t
    let t := saveFile a "$HOME/.bash_history" "dockerc_history" t
    let d1 := get_outdir_filename a (STANDARD_FILE_NAMES "dockerc_pypkgs")
    let t := runCmdRedirect ("pip3 list > " ++ d1) d1 t
    let d2 := get_outdir_filename a (STANDARD_FILE_NAMES "dockerc_diskusage")
    Except.ok (runCmdRedirect ("du -s -h ~/ > " ++ d2) d2 t))

/-- saveMachineStatus: dump hostname, IP addresses, hl-smi, lspci, cpuinfo
and the CPU scaling governor, each into its canonical file. -/
def saveMachineStatus (w : World) (a : Args) (t : Trace) : StepResult :=
  wrapStep "saveMachineStatus" (do
    let t := addMsg "Saving machine-specific information" t
    let d1 := get_outdir_filename a (STANDARD_FILE_NAMES "machine_hostname")
    let t := runCmdRedirect ("hostname > " ++ d1) d1 t
    let d2 := get_outdir_filename a (STANDARD_FILE_NAMES "machine_ipaddr")
    let t := runCmdRedirect ("hostname -I > " ++ d2) d2 t
    let d3 := get_outdir_filename a (STANDARD_FILE_NAMES "machine_hlsmi")
    let t := runCmdRedirect ("hl-smi -q > " ++ d3) d3 t
    let d4 := get_outdir_filename a (STANDARD_FILE_NAMES "machine_lspci")
    let t := runCmdRedirect ("lspci > " ++ d4) d4 t
    let d5 := get_outdir_filename a (STANDARD_FILE_NAMES "machine_cpuinfo")
    let t := runCmdRedirect ("cat /proc/cpuinfo > " ++ d5) d5 t
    let d6 := get_outdir_filename a (STANDARD_FILE_NAMES "machine_cpumode")
    Except.ok (runCmdRedirect ("cat /sys/devices/system/cpu/cpu*/cpufreq/scaling_governor > " ++ d6) d6 t))

/-- savePythonInstallationInfo: open the canonical python-info file and
append the interpreter identification. -/
def savePythonInstallationInfo (a : Args) (t : Trace) : Trace :=
  addOutFile (get_outdir_filename a (STANDARD_FILE_NAMES "python_info")) t

/-- saveOSVersionInfo: open the canonical platform-config file and append
the per-field platform probes (each probe is individually best-effort). -/
def saveOSVersionInfo (a : Args) (t : Trace) : Trace :=
  addOutFile (get_outdir_filename a (STANDARD_FILE_NAMES "platform_config_info")) t

/-- saveSynapseLibsInfo: append the dynamic-library search-path settings and
run the six find-pipelines appending into the canonical synapse-libs file. -/
def saveSynapseLibsInfo (a : Args) (t : Trace) : Trace :=
  let dest := get_outdir_filename a (STANDARD_FILE_NAMES "synapse_libs_info")
  let t := addOutFile dest t
  let pat := fun (name : String) =>
    "find /usr/local -type f -name " ++ name ++ " 2>/dev/null | grep -v .cache >> " ++ dest
  let t := runCmdRedirect (pat "libsynapse_helpers*") dest t
  let t := runCmdRedirect (pat "synapse_logger*") dest t
  let t := runCmdRedirect (pat "libhccl*") dest t
  let t := runCmdRedirect (pat "graph_writer*") dest t
  let t := runCmdRedirect (pat "habana_device*") dest t
  runCmdRedirect (pat "synapse_logger*") dest t

/-- savePackageInfo: query whichever of dpkg and rpm is installed (in that
preference order) for habanalabs packages, or note that neither exists. -/
def savePackageInfo (w : World) (a : Args) (t : Trace) : Trace :=
  let dest := get_outdir_filename a (STANDARD_FILE_NAMES "package_info")
  let cmd := if w.hasDpkg then "dpkg -l | grep habanalabs >> " ++ dest
    else if w.hasRpm then "rpm -l | grep habanalabs >> " ++ dest
    else "echo Did not find dpkg or rpm package managers >> " ++ dest
  runCmdRedirect cmd dest t

/-- saveDmesgInfo: append the kernel ring buffer into the canonical file. -/
def saveDmesgInfo (a : Args) (t : Trace) : Trace :=
  let dest := get_outdir_filename a (STANDARD_FILE_NAMES "dmesg_info")
  runCmdRedirect ("dmesg >> " ++ dest) dest t

/-- saveSystemConfig: python info, platform info, synapse libs info, package
info and dmesg, in order. -/
def saveSystemConfig (w : World) (a : Args) (t : Trace) : StepResult :=
  wrapStep "saveSystemConfig" (do
    let t := addMsg "Saving miscellaneous system configuration info" t
    let t := savePythonInstallationInfo a t
    let t := saveOSVersionInfo a t
    let t := saveSynapseLibsInfo a t
    let t := savePackageInfo w a t
    Except.ok (saveDmesgInfo a t))

/-- The path of the archive generateTarball creates: named after the output
directory basename, in the output directory parent. -/
def tarballPath (a : Args) : String :=
  dirnameStr a.outdir ++ "/" ++ basenameStr a.outdir ++ ".tar.gz"

/-- generateTarball: chmod the tree, change into the parent directory, and
create `<basename>.tar.gz` there with tarfile mode x:gz (exclusive: raises
FileExistsError when the archive already exists), archiving the whole
output directory; then chmod the archive. -/
def generateTarball (w : World) (a : Args) (t : Trace) : StepResult :=
  wrapStep "generateTarball" (do
    let t := runCmd ("chmod -R 755 " ++ a.outdir) t
    let tarfileName := basenameStr a.outdir ++ ".tar.gz"
    let t := addMsg ("Generating " ++ tarballPath a) t
    let t ← if w.pathExists (tarballPath a) then
        Except.error (PyErr.exception "FileExistsError", t)
      else pure { t with tarball := some (tarballPath a) }
    Except.ok (runCmd ("chmod -R 755 " ++ tarfileName) t))

/-- uploadTarball: a stub. -/
def uploadTarball (t : Trace) : Trace := t

/-- The collection steps of SnapshotScriptDocker.run, each with its name, in
execution order. -/
def stepList : List (String × (World → Args → Trace → StepResult)) :=
  [("saveCmdOutputs", saveCmdOutputs),
   ("saveCmdlineAndOptions", saveCmdlineAndOptions),
   ("saveEnvVars", saveEnvVars),
   ("saveHabanaLogs", saveHabanaLogs),
   ("saveModelSpecificArtifacts", saveModelSpecificArtifacts),
   ("saveAdditionalCopyDirs", saveAdditionalCopyDirs),
   ("saveDockerRunParameters", saveDockerRunParameters),
   ("saveMachineStatus", saveMachineStatus),
   ("saveSystemConfig", saveSystemConfig),
   ("generateTarball", generateTarball)]

/-- Execute a list of steps in order, stopping at the first raised error. -/
def runSteps (w : World) (a : Args) : List (String × (World → Args → Trace → StepResult)) → Trace → StepResult
  | [], t => .ok t
  | s :: rest, t =>
    match s.2 w a t with
    | .ok t2 => runSteps w a rest t2
    | .error e => .error e

/-- SnapshotScriptDocker.run: the steps in order, then the upload stub and
the completion banner; the first raised error propagates out. -/
def run (w : World) (a : Args) (t : Trace) : StepResult :=
  match runSteps w a stepList t with
  | .ok t2 => .ok (addMsg "Snapshot script completed successfully (from docker container)" (uploadTarball t2))
  | .error e => .error e

/-!
Process level.  `main` plus `GatherInfoDockerArgParser.parse_args`: the raw
command line is represented by its length (`len(sys.argv)`) together with
its parsed form; argparse itself (Python standard library) exits with
status 2 when a required argument such as -s is absent.
-/

/-- The arguments as parsed by argparse, before parse_args rewrites outdir:
`stdout = none` means the required -s flag was absent. -/
structure Cli where
  outdir : String
  clear : Bool
  lite : Bool
  stdout : Option String
  stderr : Option String
  yaml_config : Option String
  cmd_name : Option String
  copydirs : List String
deriving Repr

/-- parse_args rewrites args.outdir to the canonical -o path joined with
TMPDIR. -/
def resolvedOutdir (o : String) : String := o ++ "/" ++ TMPDIR

/-- The Args record main builds for the orchestrator from the parsed
command line (s is the required stdout path). -/
def argsOfCli (cli : Cli) (s : String) : Args :=
  { outdir := resolvedOutdir cli.outdir, clear := cli.clear, lite := cli.lite,
    stdout := s, stderr := cli.stderr, yaml_config := cli.yaml_config,
    cmd_name := cli.cmd_name, copydirs := cli.copydirs }

/-- The trace at the point the orchestrator starts: main has already written
the execution-command-line record file into the output directory. -/
def initTraceOf (a : Args) : Trace :=
  addOutFile (get_outdir_filename a EXECCMDLINEFILE) Trace.initial

/-- How the process ends: a usage/privilege exit with an explicit status, a
successful run (process status 0), or an unhandled exception (Python exits
with status 1 after printing a traceback). -/
inductive MainOutcome where
  | usageExit : Nat → MainOutcome
  | success : Trace → MainOutcome
  | uncaught : PyErr → Trace → MainOutcome
deriving DecidableEq, Repr

/-- The process exit status of an outcome. -/
def mainExitCode : MainOutcome → Nat
  | .usageExit n => n
  | .success _ => 0
  | .uncaught _ _ => 1

/-- The run trace carried by an outcome (empty for a usage exit, which
happens before any collection). -/
def outcomeTrace : MainOutcome → Trace
  | .usageExit _ => Trace.initial
  | .success t => t
  | .uncaught _ t => t

/-- main plus parse_args: with a single argv entry (no arguments) print
help and exit 1; argparse exits 2 when the required -s flag is absent; a
nonzero effective uid prints usage and exits 1; otherwise prepare the
output directory (modelled as succeeding; `create_output_dir` is verified
separately over the filesystem model), write the execution-command-line
record, and run the orchestrator, whose first error escapes as an unhandled
exception. -/
def main (w : World) (argvLen : Nat) (euid : Nat) (cli : Cli) : MainOutcome :=
  if argvLen = 1 then .usageExit 1
  else match cli.stdout with
    | none => .usageExit 2
    | some s =>
      if euid ≠ 0 then .usageExit 1
      else
        let a := argsOfCli cli s
        match run w a (initTraceOf a) with
        | .ok t => .success t
        | .error (e, t) => .uncaught e t

/-!
Concrete demonstration data used by the witnesses and counterexamples.
-/

/-- A demonstration filesystem: /tmp is a directory and a stale
/tmp/snap.tar.gz regular file exists. -/
def fsDemo : FS := fun q =>
  if q = ([] : FPath) then some FKind.dir
  else if q = ["tmp"] then some FKind.dir
  else if q = ["tmp", "snap.tar.gz"] then some FKind.file
  else none

/-- The filesystem fsDemo after create_output_dir on /tmp/snap. -/
def fsDemoAfter : FS :=
  match create_output_dir fsDemo ["tmp", "snap"] false with
  | .ok f => f
  | .error _ => fsDemo

/-- A demonstration filesystem with a regular file at /tmp/snap. -/
def fsFileDemo : FS := fun q =>
  if q = ([] : FPath) then some FKind.dir
  else if q = ["tmp"] then some FKind.dir
  else if q = ["tmp", "snap"] then some FKind.file
  else none

/-- The filesystem fsFileDemo after create_output_dir with the clear flag. -/
def fsFileDemoAfter : FS :=
  match create_output_dir fsFileDemo ["tmp", "snap"] true with
  | .ok f => f
  | .error _ => fsFileDemo

/-- A demonstration home directory: the entry `project` transitively
contains a directory named `snap`. -/
def homeDemo : List Entry :=
  [Entry.dir "project" [Entry.dir "snap" []], Entry.file "notes.txt"]

/-- A demonstration home directory holding a regular file named snap. -/
def homeFileDemo : List Entry := [Entry.file "snap", Entry.dir "snap" []]

/-- The parsed command line of the invocation `-o /tmp/snap -s /tmp/run.log
--lite`. -/
def cliDemo : Cli :=
  { outdir := "/tmp/snap", clear := false, lite := true, stdout := some "/tmp/run.log",
    stderr := none, yaml_config := none, cmd_name := none, copydirs := [] }

/-- The same command line with the required -s flag absent. -/
def cliNoStdout : Cli :=
  { outdir := "/tmp/snap", clear := false, lite := true, stdout := none,
    stderr := none, yaml_config := none, cmd_name := none, copydirs := [] }

/-- A demonstration world: /tmp/run.log exists, every command exits 0,
HABANA_LOGS is set, the home directory is empty, dpkg is installed. -/
def worldDemo : World :=
  { pathExists := fun s => s == "/tmp/run.log",
    cmdExitCode := fun _ => 0,
    habanaLogsEnv := some "/var/log/habana_logs",
    homePath := "/root", homeEntries := [],
    hasDpkg := true, hasRpm := false }

/-- The orchestrator arguments of the demonstration invocation. -/
def demoArgs : Args := argsOfCli cliDemo "/tmp/run.log"

/-- The trace of the demonstration run. -/
def demoTrace : Trace := outcomeTrace (main worldDemo 4 0 cliDemo)

/-- A world in which no path exists, in particular not the stdout file. -/
def wNoStdout : World :=
  { pathExists := fun _ => false,
    cmdExitCode := fun _ => 0,
    habanaLogsEnv := none,
    homePath := "/root", homeEntries := [],
    hasDpkg := true, hasRpm := false }

/-- The exception raised by saveCmdOutputs when /tmp/run.log is absent, as
wrapped by the step. -/
def errDemo : PyErr :=
  PyErr.runtimeError "Error in saveCmdOutputs"
    (PyErr.exception "/tmp/run.log is not a valid filename")

/-- The trace at the moment saveCmdOutputs raises on a missing
/tmp/run.log. -/
def failTraceDemo : Trace :=
  addMsg "The filename specified by /tmp/run.log does not exist"
    (addMsg "Saving command outputs" Trace.initial)

/-- The cp command saveCmdOutputs issues for /tmp/run.log on the
demonstration invocation. -/
def cpCmd : String :=
  "cp -r -f -L --preserve=timestamps /tmp/run.log /tmp/snap/gather_info_docker/cmd_stdout.txt"

/-- The demonstration world, except that the stdout cp command reports exit
status 1. -/
def worldFailCp : World :=
  { pathExists := fun s => s == "/tmp/run.log",
    cmdExitCode := fun c => if c == cpCmd then 1 else 0,
    habanaLogsEnv := some "/var/log/habana_logs",
    homePath := "/root", homeEntries := [],
    hasDpkg := true, hasRpm := false }

/-- A world in which only /tmp/data exists. -/
def wCopy : World :=
  { pathExists := fun s => s == "/tmp/data",
    cmdExitCode := fun _ => 0,
    habanaLogsEnv := none,
    homePath := "/root", homeEntries := [],
    hasDpkg := true, hasRpm := false }

/-- Arguments with the copydirs list `/nonexistent /tmp/data`. -/
def aCopy : Args :=
  { outdir := "/tmp/snap/gather_info_docker", clear := false, lite := true,
    stdout := "/tmp/run.log", stderr := none, yaml_config := none,
    cmd_name := none, copydirs := ["/nonexistent", "/tmp/data"] }

/-!
Theorems.
-/

theorem makedirs_ok_dir {fs : FS} {p : FPath} {fs2 : FS}
    (h : fs.makedirs p = .ok fs2) : fs2 p = some FKind.dir := by
  rw [FS.makedirs] at h
  split at h
  case isTrue hc =>
    injection h with h2
    subst h2
    have hp : fs.isfile p = false := by
      have := List.all_eq_true.mp hc p ((List.mem_inits p p).mpr (List.prefix_refl p))
      simpa using this
    have hpre : p.isPrefixOf p = true := List.isPrefixOf_iff_prefix.mpr (List.prefix_refl p)
    rw [FS.isfile] at hp
    show (if p.isPrefixOf p && (fs p).isNone then some FKind.dir else fs p) = some FKind.dir
    rw [hpre, Bool.true_and]
    cases hfp : fs p with
    | none => simp
    | some k =>
      cases k with
      | file => exact absurd hfp (by simpa using hp)
      | dir => simp
  case isFalse => exact absurd h (by simp)

theorem tarSibling_ne (p : FPath) : tarSibling p ≠ p := by
  intro he
  cases p with
  | nil => simp [tarSibling] at he
  | cons x xs =>
    have h1 : (tarSibling (x :: xs)).getLast? = some ((x :: xs).getLastD "" ++ ".tar.gz") := by
      rw [tarSibling]
      exact List.getLast?_concat _
    rw [he] at h1
    rw [List.getLastD_eq_getLast?] at h1
    cases hz : (x :: xs).getLast? with
    | none => simp [hz] at h1
    | some z =>
      rw [hz] at h1
      have h2 : z = z ++ ".tar.gz" := by simpa using h1
      have h3 := congrArg String.length h2
      rw [String.length_append] at h3
      have h4 : (".tar.gz" : String).length = 7 := rfl
      omega

theorem create_output_dir_ok_parts {fs : FS} {p : FPath} {c : Bool} {fs3 : FS}
    (h : create_output_dir fs p c = .ok fs3) :
    fs3 p = some FKind.dir ∧ fs3 (tarSibling p) ≠ some FKind.file := by
  rw [create_output_dir] at h
  cases hmk : (if c then
      if fs.isfile p then fs.removeEntry p
      else if fs.isdir p then fs.rmtree p
      else fs
    else fs).makedirs p with
  | error e => rw [hmk] at h; exact absurd h (by simp)
  | ok fs2 =>
    rw [hmk] at h
    injection h with h2
    have hdir : fs2 p = some FKind.dir := makedirs_ok_dir hmk
    subst h2
    constructor
    · split
      case isTrue =>
        rw [FS.removeEntry]
        rw [if_neg (fun hq => tarSibling_ne p hq.symm)]
        exact hdir
      case isFalse => exact hdir
    · split
      case isTrue =>
        rw [FS.removeEntry, if_pos rfl]
        simp
      case isFalse hnf =>
        rw [FS.isfile] at hnf
        simpa using hnf

/-- C4: whenever create_output_dir returns successfully on a requested
output path, afterwards that path is occupied by a directory and no
`<path>.tar.gz` regular file exists beside it, whatever the clear flag
was. -/
theorem create_output_dir_postcondition (fs : FS) (p : FPath) (c : Bool) (fs3 : FS)
    (h : create_output_dir fs p c = .ok fs3) :
    fs3 p = some FKind.dir ∧ fs3 (tarSibling p) ≠ some FKind.file :=
  create_output_dir_ok_parts h

/-- Witness for C4 at the concrete filesystem fsDemo. -/
theorem create_output_dir_postcondition_witness :
    create_output_dir fsDemo ["tmp", "snap"] false = .ok fsDemoAfter ∧
    fsDemoAfter ["tmp", "snap"] = some FKind.dir ∧
    fsDemoAfter (tarSibling ["tmp", "snap"]) ≠ some FKind.file :=
  ⟨rfl, create_output_dir_postcondition fsDemo ["tmp", "snap"] false fsDemoAfter rfl⟩

/-- C8: when the clear flag is true and a regular file previously occupied
the requested output path, after a successful create_output_dir a directory
occupies that path instead. -/
theorem create_output_dir_clear_file_to_dir (fs : FS) (p : FPath) (fs3 : FS)
    (hf : fs p = some FKind.file) (h : create_output_dir fs p true = .ok fs3) :
    fs3 p = some FKind.dir :=
  (create_output_dir_ok_parts h).1

/-- Witness for C8 at the concrete filesystem fsFileDemo. -/
theorem create_output_dir_clear_file_to_dir_witness :
    fsFileDemo ["tmp", "snap"] = some FKind.file ∧
    create_output_dir fsFileDemo ["tmp", "snap"] true = .ok fsFileDemoAfter ∧
    fsFileDemoAfter ["tmp", "snap"] = some FKind.dir :=
  ⟨rfl, rfl, create_output_dir_clear_file_to_dir fsFileDemo ["tmp", "snap"] fsFileDemoAfter rfl rfl⟩

theorem valid_no_contains (b : String) :
    (l : List Entry) → isValidDirToCopy b l = true → containsAny b l = false
  | [], _ => by simp [containsAny]
  | .file _ :: es, h => by
    simp only [isValidDirToCopy] at h
    simp only [containsAny]
    exact valid_no_contains b es h
  | .dir n cs :: es, h => by
    simp only [isValidDirToCopy, Bool.and_eq_true, Bool.not_eq_true'] at h
    obtain ⟨⟨hn, hcs⟩, hes⟩ := h
    simp [containsAny, hn, valid_no_contains b cs hcs, valid_no_contains b es hes]

/-- C5: no entry returned by the home-directory enumeration is, or
transitively contains, a directory whose basename equals the output
directory basename; equivalently, any home entry that does contain such a
directory is excluded from the copy list entirely. -/
theorem homeDirContent_excludes_outdir_basename (b : String) (home : List Entry) :
    (∀ e ∈ getHomeDirContentToSave b home, containsDirNamed b e = false) ∧
    (∀ e, containsDirNamed b e = true → e ∉ getHomeDirContentToSave b home) := by
  have h1 : ∀ e ∈ getHomeDirContentToSave b home, containsDirNamed b e = false := by
    intro e he
    rw [getHomeDirContentToSave] at he
    have hk := (List.mem_filter.mp he).2
    cases e with
    | file n => rfl
    | dir n cs =>
      simp only [keepHomeEntry, Bool.and_eq_true, Bool.not_eq_true'] at hk
      simp [containsDirNamed, hk.1, valid_no_contains b cs hk.2]
  exact ⟨h1, fun e hc hmem => by rw [h1 e hmem] at hc; exact Bool.false_ne_true hc⟩

/-- Witness for C5 at the concrete home tree homeDemo with output directory
basename snap: the `project` entry is excluded from the copy list. -/
theorem homeDirContent_excludes_outdir_basename_witness :
    Entry.dir "project" [Entry.dir "snap" []] ∉ getHomeDirContentToSave "snap" homeDemo :=
  (homeDirContent_excludes_outdir_basename "snap" homeDemo).2
    (Entry.dir "project" [Entry.dir "snap" []]) (by simp [containsDirNamed, containsAny])

/-- C10: the exclusion by output-directory basename applies only to
directory entries: a regular file directly under the home directory whose
name equals the excluded basename is still in the returned copy list. -/
theorem homeDirContent_keeps_file_named_outdir (b : String) (home : List Entry)
    (h : Entry.file b ∈ home) : Entry.file b ∈ getHomeDirContentToSave b home :=
  List.mem_filter.mpr ⟨h, rfl⟩

/-- Witness for C10 at the concrete home tree homeFileDemo: the regular
file named snap is kept. -/
theorem homeDirContent_keeps_file_named_outdir_witness :
    Entry.file "snap" ∈ homeFileDemo ∧
    Entry.file "snap" ∈ getHomeDirContentToSave "snap" homeFileDemo :=
  ⟨List.Mem.head _, homeDirContent_keeps_file_named_outdir "snap" homeFileDemo (List.Mem.head _)⟩

/-- C3 counterexample: on the lite invocation `-o /tmp/snap -s /tmp/run.log
--lite` the run succeeds, yet the home-directory-artifacts subdirectory is
never created inside the output directory (the claim says it is created and
left empty). -/
theorem lite_homedir_not_created :
    mainExitCode (main worldDemo 4 0 cliDemo) = 0 ∧
    get_outdir_filename (argsOfCli cliDemo "/tmp/run.log") (STANDARD_FILE_NAMES "dockerc_homedir")
      ∉ demoTrace.outDirs := by
  decide

/-- C3 amended: with the lite flag set, saveModelSpecificArtifacts returns
immediately after printing the skip banner: the home-directory-artifacts
subdirectory is not created at all, and no contents of the home directory
are copied. -/
theorem lite_skips_homedir_step (w : World) (a : Args) (t : Trace) (h : a.lite = true) :
    saveModelSpecificArtifacts w a t = .ok (addMsg liteSkipMsg t) ∧
    (addMsg liteSkipMsg t).outDirs = t.outDirs ∧
    (addMsg liteSkipMsg t).copies = t.copies := by
  refine ⟨?_, rfl, rfl⟩
  simp [saveModelSpecificArtifacts, h]

/-- Witness for the amended C3 at the demonstration invocation. -/
theorem lite_skips_homedir_step_witness :
    demoArgs.lite = true ∧
    saveModelSpecificArtifacts worldDemo demoArgs Trace.initial
      = .ok (addMsg liteSkipMsg Trace.initial) ∧
    (addMsg liteSkipMsg Trace.initial).outDirs = Trace.initial.outDirs ∧
    (addMsg liteSkipMsg Trace.initial).copies = Trace.initial.copies :=
  ⟨rfl, lite_skips_homedir_step worldDemo demoArgs Trace.initial rfl⟩

/-- C6: when the required stdout path does not exist, the run raises
RuntimeError("Error in saveCmdOutputs") wrapping the precondition
Exception, the error propagates out of run, and the trace at the abort
carries no archive (the archive step never ran). -/
theorem missing_stdout_aborts_run (w : World) (a : Args) (t : Trace)
    (h : w.pathExists a.stdout = false) (ht : t.tarball = none) :
    run w a t = .error
      (PyErr.runtimeError "Error in saveCmdOutputs"
        (PyErr.exception (a.stdout ++ " is not a valid filename")),
       addMsg ("The filename specified by " ++ a.stdout ++ " does not exist")
         (addMsg "Saving command outputs" t)) ∧
    (addMsg ("The filename specified by " ++ a.stdout ++ " does not exist")
      (addMsg "Saving command outputs" t)).tarball = none := by
  constructor
  · simp [run, runSteps, stepList, saveCmdOutputs, wrapStep, h, Bind.bind, Except.bind]
  · simpa [addMsg] using ht

/-- Witness for C6 at the demonstration invocation, in a world where
/tmp/run.log does not exist. -/
theorem missing_stdout_aborts_run_witness :
    run wNoStdout demoArgs Trace.initial = .error (errDemo, failTraceDemo) ∧
    failTraceDemo.tarball = none :=
  missing_stdout_aborts_run wNoStdout demoArgs Trace.initial rfl rfl

/-- C1 counterexample: parse_args joins the -o argument with TMPDIR, so the
invocation `-o /tmp/snap` collects into /tmp/snap/gather_info_docker, not
into /tmp/snap itself, and the archive of the demonstration run is
/tmp/snap/gather_info_docker.tar.gz, not /tmp/snap.tar.gz. -/
theorem run_outdir_is_joined_with_tmpdir :
    resolvedOutdir "/tmp/snap" ≠ "/tmp/snap" ∧
    (argsOfCli cliDemo "/tmp/run.log").outdir = "/tmp/snap/gather_info_docker" ∧
    tarballPath (argsOfCli cliDemo "/tmp/run.log") ≠ "/tmp/snap.tar.gz" ∧
    demoTrace.tarball ≠ some "/tmp/snap.tar.gz" := by
  decide

/-- C1 amended: the invocation `-o /tmp/snap -s /tmp/run.log --lite` in the
demonstration world exits 0 and populates /tmp/snap/gather_info_docker/
with the canonical artifacts (cmd_stdout.txt copied from /tmp/run.log,
env_vars.txt, habana_logs/, docker history, python packages, disk usage and
machine-status files), and archives that directory as
/tmp/snap/gather_info_docker.tar.gz beside it, inside /tmp/snap. -/
theorem lite_run_end_to_end :
    mainExitCode (main worldDemo 4 0 cliDemo) = 0 ∧
    ({ src := "/tmp/run.log", dest := "/tmp/snap/gather_info_docker/cmd_stdout.txt",
       dereference := true } : CopyOp) ∈ demoTrace.copies ∧
    "/tmp/snap/gather_info_docker/env_vars.txt" ∈ demoTrace.outFiles ∧
    "/tmp/snap/gather_info_docker/habana_logs" ∈ demoTrace.outDirs ∧
    ({ src := "$HOME/.bash_history",
       dest := "/tmp/snap/gather_info_docker/docker_container_history.txt",
       dereference := true } : CopyOp) ∈ demoTrace.copies ∧
    "/tmp/snap/gather_info_docker/docker_container_python_pkgs.txt" ∈ demoTrace.outFiles ∧
    "/tmp/snap/gather_info_docker/docker_container_disk_usage.txt" ∈ demoTrace.outFiles ∧
    "/tmp/snap/gather_info_docker/machine_hostname.txt" ∈ demoTrace.outFiles ∧
    "/tmp/snap/gather_info_docker/machine_ipaddr.txt" ∈ demoTrace.outFiles ∧
    "/tmp/snap/gather_info_docker/machine_hlsmi.txt" ∈ demoTrace.outFiles ∧
    "/tmp/snap/gather_info_docker/machine_lspci.txt" ∈ demoTrace.outFiles ∧
    "/tmp/snap/gather_info_docker/machine_cpuinfo.txt" ∈ demoTrace.outFiles ∧
    "/tmp/snap/gather_info_docker/machine_cpumode.txt" ∈ demoTrace.outFiles ∧
    demoTrace.tarball = some "/tmp/snap/gather_info_docker.tar.gz" := by
  decide

theorem copydirsLoop_msgs_mono (w : World) (a : Args) :
    ∀ (l : List String) (t : Trace) (m : String),
      m ∈ t.msgs → m ∈ (copydirsLoop w a l t).msgs := by
  intro l
  induction l with
  | nil => intro t m hm; exact hm
  | cons d l ih =>
    intro t m hm
    rw [copydirsLoop, List.foldl_cons]
    show m ∈ (copydirsLoop w a l _).msgs
    split
    · exact ih _ m (by simpa [saveFileNoSymlink, runCmd] using hm)
    · exact ih _ m (by simp [addMsg]; exact Or.inl hm)

theorem copydirsLoop_copies_mono (w : World) (a : Args) :
    ∀ (l : List String) (t : Trace) (op : CopyOp),
      op ∈ t.copies → op ∈ (copydirsLoop w a l t).copies := by
  intro l
  induction l with
  | nil => intro t op hm; exact hm
  | cons d l ih =>
    intro t op hm
    rw [copydirsLoop, List.foldl_cons]
    show op ∈ (copydirsLoop w a l _).copies
    split
    · exact ih _ op (by simp [saveFileNoSymlink, runCmd]; exact Or.inl hm)
    · exact ih _ op (by simpa [addMsg] using hm)

theorem copydirsLoop_skip (w : World) (a : Args) :
    ∀ (l : List String) (t : Trace) (d : String), d ∈ l → w.pathExists d = false →
      ("Skipping " ++ d ++ " from copydirs since this path does not exist")
        ∈ (copydirsLoop w a l t).msgs := by
  intro l
  induction l with
  | nil => intro t d hd; exact absurd hd (List.not_mem_nil d)
  | cons d0 l ih =>
    intro t d hd hne
    rcases List.mem_cons.mp hd with h | h
    · subst h
      rw [copydirsLoop, List.foldl_cons]
      show _ ∈ (copydirsLoop w a l _).msgs
      rw [if_neg (by rw [hne]; exact Bool.false_ne_true)]
      exact copydirsLoop_msgs_mono w a l _ _ (by simp [addMsg])
    · rw [copydirsLoop, List.foldl_cons]
      exact ih _ d h hne

theorem copydirsLoop_copy (w : World) (a : Args) :
    ∀ (l : List String) (t : Trace) (d : String), d ∈ l → w.pathExists d = true →
      ({ src := d, dest := get_outdir_filename a (STANDARD_FILE_NAMES "dockerc_copydir"),
         dereference := false } : CopyOp) ∈ (copydirsLoop w a l t).copies := by
  intro l
  induction l with
  | nil => intro t d hd; exact absurd hd (List.not_mem_nil d)
  | cons d0 l ih =>
    intro t d hd hex
    rcases List.mem_cons.mp hd with h | h
    · subst h
      rw [copydirsLoop, List.foldl_cons]
      show _ ∈ (copydirsLoop w a l _).copies
      rw [if_pos hex]
      exact copydirsLoop_copies_mono w a l _ _ (by simp [saveFileNoSymlink, runCmd])
    · rw [copydirsLoop, List.foldl_cons]
      exact ih _ d h hex

theorem copydirsLoop_copies_from (w : World) (a : Args) :
    ∀ (l : List String) (t : Trace) (op : CopyOp), op ∈ (copydirsLoop w a l t).copies →
      op ∈ t.copies ∨ (w.pathExists op.src = true ∧ op.dereference = false ∧
        op.dest = get_outdir_filename a (STANDARD_FILE_NAMES "dockerc_copydir")) := by
  intro l
  induction l with
  | nil => intro t op hm; exact Or.inl hm
  | cons d l ih =>
    intro t op hm
    rw [copydirsLoop, List.foldl_cons] at hm
    rcases ih _ op hm with hin | hp
    · by_cases hex : w.pathExists d = true
      · rw [if_pos hex] at hin
        simp only [saveFileNoSymlink, runCmd] at hin
        rcases List.mem_append.mp hin with h | h
        · exact Or.inl h
        · right
          rw [List.mem_singleton.mp h]
          exact ⟨hex, rfl, rfl⟩
      · rw [if_neg hex] at hin
        exact Or.inl (by simpa [addMsg] using hin)
    · exact Or.inr hp

/-- C7: the copydirs step never raises; every copydirs entry whose path
does not exist is skipped with a diagnostic, every entry whose path exists
yields a cp without the dereference flag into the extras subdirectory, and
every copy the step adds preserves symbolic links as links. -/
theorem copydirs_skip_and_copy (w : World) (a : Args) (t : Trace) :
    saveAdditionalCopyDirs w a t = .ok (copydirsResult w a t) ∧
    (∀ d ∈ a.copydirs, w.pathExists d = false →
      ("Skipping " ++ d ++ " from copydirs since this path does not exist")
        ∈ (copydirsResult w a t).msgs) ∧
    (∀ d ∈ a.copydirs, w.pathExists d = true →
      ({ src := d, dest := get_outdir_filename a (STANDARD_FILE_NAMES "dockerc_copydir"),
         dereference := false } : CopyOp) ∈ (copydirsResult w a t).copies) ∧
    (∀ op ∈ (copydirsResult w a t).copies, op ∈ t.copies ∨
      (w.pathExists op.src = true ∧ op.dereference = false ∧
        op.dest = get_outdir_filename a (STANDARD_FILE_NAMES "dockerc_copydir"))) := by
  refine ⟨rfl, ?_, ?_, ?_⟩
  · intro d hd hne
    have hn : ¬(a.copydirs = []) := by intro h0; rw [h0] at hd; exact List.not_mem_nil d hd
    rw [copydirsResult, if_neg hn]
    exact copydirsLoop_skip w a a.copydirs _ d hd hne
  · intro d hd hex
    have hn : ¬(a.copydirs = []) := by intro h0; rw [h0] at hd; exact List.not_mem_nil d hd
    rw [copydirsResult, if_neg hn]
    exact copydirsLoop_copy w a a.copydirs _ d hd hex
  · intro op hop
    rw [copydirsResult] at hop
    split at hop
    · exact Or.inl hop
    · rcases copydirsLoop_copies_from w a a.copydirs _ op hop with hin | hp
      · exact Or.inl (by simpa [addOutDir, addMsg] using hin)
      · exact Or.inr hp

/-- Witness for C7: copydirs `/nonexistent /tmp/data` in a world where only
/tmp/data exists: the step succeeds, the missing entry is skipped with the
diagnostic, and the existing entry is copied without dereferencing. -/
theorem copydirs_skip_and_copy_witness :
    saveAdditionalCopyDirs wCopy aCopy Trace.initial = .ok (copydirsResult wCopy aCopy Trace.initial) ∧
    ("Skipping " ++ "/nonexistent" ++ " from copydirs since this path does not exist")
      ∈ (copydirsResult wCopy aCopy Trace.initial).msgs ∧
    ({ src := "/tmp/data",
       dest := get_outdir_filename aCopy (STANDARD_FILE_NAMES "dockerc_copydir"),
       dereference := false } : CopyOp) ∈ (copydirsResult wCopy aCopy Trace.initial).copies :=
  ⟨(copydirs_skip_and_copy wCopy aCopy Trace.initial).1,
   (copydirs_skip_and_copy wCopy aCopy Trace.initial).2.1 "/nonexistent" (by decide) (by decide),
   (copydirs_skip_and_copy wCopy aCopy Trace.initial).2.2.1 "/tmp/data" (by decide) (by decide)⟩

theorem wrapStep_error_shape {n : String} {r : StepResult} {e : PyErr} {t2 : Trace}
    (h : wrapStep n r = .error (e, t2)) :
    ∃ c, e = PyErr.runtimeError ("Error in " ++ n) c := by
  cases r with
  | ok t => simp [wrapStep] at h
  | error p =>
    obtain ⟨e0, t0⟩ := p
    simp only [wrapStep, Except.error.injEq, Prod.mk.injEq] at h
    exact ⟨e0, h.1.symm⟩

/-- C2 counterexample: the stdout cp command of step 1 reports exit status
1 in worldFailCp, the command is executed, and yet the whole run exits 0:
run_cmd discards exit statuses, so a failing external command raises no
step error and does not stop the run. -/
theorem external_cmd_failure_not_detected :
    worldFailCp.cmdExitCode cpCmd = 1 ∧
    cpCmd ∈ (outcomeTrace (main worldFailCp 4 0 cliDemo)).cmds ∧
    mainExitCode (main worldFailCp 4 0 cliDemo) = 0 := by
  decide

/-- C2 amended: every Python exception raised inside a collection step is
re-raised as RuntimeError("Error in <step>") wrapping the original cause,
and the orchestrator does not continue past a step that raises (its error
is the result of the whole sequence); exit statuses of external shell
commands, however, are discarded by run_cmd and never raise. -/
theorem steps_wrap_python_errors_and_abort :
    (∀ s ∈ stepList, ∀ (w : World) (a : Args) (t : Trace) (e : PyErr) (t2 : Trace),
      s.2 w a t = .error (e, t2) → ∃ c, e = PyErr.runtimeError ("Error in " ++ s.1) c) ∧
    (∀ (w : World) (a : Args) (s : String × (World → Args → Trace → StepResult))
       (rest : List (String × (World → Args → Trace → StepResult))) (t : Trace)
       (e : PyErr) (t2 : Trace),
      s.2 w a t = .error (e, t2) → runSteps w a (s :: rest) t = .error (e, t2)) := by
  constructor
  · intro s hs
    simp only [stepList, List.mem_cons, List.not_mem_nil, or_false] at hs
    rcases hs with h|h|h|h|h|h|h|h|h|h <;> subst h <;> intro w a t e t2 h
    all_goals
      first
      | exact wrapStep_error_shape h
      | (simp only [saveModelSpecificArtifacts] at h
         split at h
         next => exact absurd h (by simp)
         next => exact wrapStep_error_shape h)
      | (exfalso
         simp [saveEnvVars, saveHabanaLogs, saveAdditionalCopyDirs, saveDockerRunParameters,
               saveMachineStatus, saveSystemConfig, wrapStep] at h)
  · intro w a s rest t e t2 h
    simp [runSteps, h]

/-- Witness for the amended C2: the missing-stdout error of step 1 carries
the step name and wrapping, and the step sequence starting with it stops
there. -/
theorem steps_wrap_python_errors_and_abort_witness :
    (∃ c, errDemo = PyErr.runtimeError ("Error in " ++ "saveCmdOutputs") c) ∧
    runSteps wNoStdout demoArgs [("saveCmdOutputs", saveCmdOutputs)] Trace.initial
      = .error (errDemo, failTraceDemo) :=
  ⟨steps_wrap_python_errors_and_abort.1 ("saveCmdOutputs", saveCmdOutputs) (List.Mem.head _)
     wNoStdout demoArgs Trace.initial errDemo failTraceDemo rfl,
   steps_wrap_python_errors_and_abort.2 wNoStdout demoArgs ("saveCmdOutputs", saveCmdOutputs) []
     Trace.initial errDemo failTraceDemo rfl⟩

/-- C9 counterexample: a missing required -s flag is an argument error, and
argparse makes the process exit with status 2, not 1. -/
theorem missing_required_flag_exits_two :
    main worldDemo 2 0 cliNoStdout = MainOutcome.usageExit 2 ∧
    mainExitCode (main worldDemo 2 0 cliNoStdout) ≠ 1 := by
  decide

/-- C9 amended: invocation with no arguments exits 1 after printing usage;
a missing required stdout flag exits 2 (the argparse default for usage
errors); missing root privilege exits 1; otherwise the process exits 0 when
the run succeeds and 1 (unhandled exception) when it raises. -/
theorem exit_code_policy :
    (∀ (w : World) (euid : Nat) (cli : Cli), main w 1 euid cli = MainOutcome.usageExit 1) ∧
    (∀ (w : World) (n euid : Nat) (cli : Cli), n ≠ 1 → cli.stdout = none →
      main w n euid cli = MainOutcome.usageExit 2) ∧
    (∀ (w : World) (n euid : Nat) (cli : Cli) (s : String), n ≠ 1 → cli.stdout = some s →
      euid ≠ 0 → main w n euid cli = MainOutcome.usageExit 1) ∧
    (∀ (w : World) (n euid : Nat) (cli : Cli) (s : String), n ≠ 1 → cli.stdout = some s →
      euid = 0 →
      mainExitCode (main w n euid cli) =
        (match run w (argsOfCli cli s) (initTraceOf (argsOfCli cli s)) with
         | .ok _ => 0
         | .error _ => 1)) := by
  refine ⟨?_, ?_, ?_, ?_⟩
  · intro w euid cli
    simp [main]
  · intro w n euid cli hn hs
    simp [main, hn, hs]
  · intro w n euid cli s hn hs he
    simp [main, hn, hs, he]
  · intro w n euid cli s hn hs he
    subst he
    simp only [main, if_neg hn, hs]
    rw [if_neg (by simp)]
    cases hr : run w (argsOfCli cli s) (initTraceOf (argsOfCli cli s)) with
    | ok t => simp [hr, mainExitCode]
    | error p =>
      obtain ⟨e, t⟩ := p
      simp [hr, mainExitCode]

/-- Witness for the amended C9 at concrete invocations: no arguments, a
missing -s flag, a nonzero uid, and the successful demonstration run. -/
theorem exit_code_policy_witness :
    main worldDemo 1 0 cliDemo = MainOutcome.usageExit 1 ∧
    main worldDemo 3 0 cliNoStdout = MainOutcome.usageExit 2 ∧
    main worldDemo 4 1000 cliDemo = MainOutcome.usageExit 1 ∧
    mainExitCode (main worldDemo 4 0 cliDemo) =
      (match run worldDemo (argsOfCli cliDemo "/tmp/run.log")
         (initTraceOf (argsOfCli cliDemo "/tmp/run.log")) with
       | .ok _ => 0
       | .error _ => 1) :=
  ⟨exit_code_policy.1 worldDemo 0 cliDemo,
   exit_code_policy.2.1 worldDemo 3 0 cliNoStdout (by decide) rfl,
   exit_code_policy.2.2.1 worldDemo 4 1000 cliDemo "/tmp/run.log" (by decide) rfl (by decide),
   exit_code_policy.2.2.2 worldDemo 4 0 cliDemo "/tmp/run.log" (by decide) rfl rfl⟩

end Snapshot
